import Mathlib

/-!
Verification of the node-resteemo client library (src/index.js) against its
natural-language specification.  The JavaScript source is shallowly embedded:
JSON/JavaScript values become the inductive `JSVal`, property access becomes
`getField` (erroring exactly where JavaScript would throw a TypeError),
truthiness becomes `jsTruthy`, and each source function becomes a Lean
function of the same name.  Callback-style control flow is reified as the
outcome type `CallOutcome` (for the request pipeline) and `HandlerOutcome`
(for the response validator).
-/

namespace Resteemo

/-- A JavaScript value, as needed by src/index.js.  `undefined` is included
because property access on objects yields it for absent keys; `JSON.parse`
itself never produces it.  Numbers are modelled as integers (the library only
ever splices a season `Number` into a path). -/
inductive JSVal where
  | undefined : JSVal
  | null : JSVal
  | bool : Bool → JSVal
  | num : Int → JSVal
  | str : String → JSVal
  | obj : List (String × JSVal) → JSVal
  | arr : List JSVal → JSVal

/-- JavaScript truthiness, as used by `!response.success`,
`options.summoner`, `options.tag || options.guid`, etc. -/
def jsTruthy : JSVal → Bool
  | .undefined => false
  | .null => false
  | .bool b => b
  | .num n => n != 0
  | .str s => s != ""
  | .obj _ => true
  | .arr _ => true

/-- `lodash.isundefined`: strict equality with `undefined`. -/
def isUndefined : JSVal → Bool
  | .undefined => true
  | _ => false

/-- JavaScript property access `v[k]`.  On `undefined` and `null` it throws a
TypeError (modelled as `Except.error`); on an object it yields the first
binding for `k`, or `undefined` when `k` is absent; on the remaining
primitives and on arrays it yields `undefined` for the keys this library ever
reads (`success`, `data`, `_success`), which are own-properties of none of
them. -/
def getField : JSVal → String → Except Unit JSVal
  | .undefined, _ => .error ()
  | .null, _ => .error ()
  | .obj fs, k => .ok ((fs.lookup k).getD .undefined)
  | _, _ => .ok .undefined

/-- src/index.js:27-29 — `brandError`: every library-made error message is
prefixed with the fixed library tag. -/
def brandError (value : String) : String := "node-resteemo - " ++ value

/-- src/index.js:9-18 — the static `PLATFORMS` table: pairs of
(short code, full name). -/
def PLATFORMS : List (String × String) :=
  [("na", "North_America"),
   ("br", "Brasil"),
   ("ru", "Russia"),
   ("euw", "Europe_West"),
   ("eun", "Europe_East"),
   ("tr", "Turkey"),
   ("las", "Latin_America_South"),
   ("lan", "Latin_America_North")]

/-- The 8 platform short codes. -/
def shortCodes : List String := PLATFORMS.map Prod.fst

/-- The 8 platform full names. -/
def fullNames : List String := PLATFORMS.map Prod.snd

/-- All 16 known platform spellings. -/
def knownForms : List String := shortCodes ++ fullNames

/-- src/index.js:39-51 — `normalizePlatform`: if the argument matches a known
short code, return it unchanged; else if it matches a known full name, return
the corresponding short code; else `null` (modelled as `none`).  The lodash
`find(PLATFORMS, \x7b'short': platform\x7d)` is a first-match linear scan on the
named field. -/
def normalizePlatform (platform : String) : Option String :=
  match PLATFORMS.find? (fun e => e.1 == platform) with
  | some _ => some platform
  | none =>
    match PLATFORMS.find? (fun e => e.2 == platform) with
    | some m => some m.1
    | none => none

/-- Outcome of the `end` handler inside `responseHandler`
(src/index.js:68-90): the callback is invoked with an error, or with
`(null, response)`, or an exception escapes the handler and the callback is
never invoked at all (`thrown`). -/
inductive HandlerOutcome where
  | err : String → HandlerOutcome
  | ok : JSVal → HandlerOutcome
  | thrown : HandlerOutcome

/-- src/index.js:61-92 — the body of `responseHandler`'s `end` listener,
after the body has been accumulated.  The input is the result of
`JSON.parse` on the accumulated body: `none` when the body is not parseable
JSON (the only case the `try`/`catch` protects), `some v` otherwise.
`response.success`, `response.data` and `response.data._success` are read via
`getField`; a TypeError there is not caught, so it escapes as `thrown`. -/
def responseHandler (parsed : Option JSVal) : HandlerOutcome :=
  match parsed with
  | none => .err (brandError "invalid json response")
  | some response =>
    match getField response "success" with
    | .error _ => .thrown
    | .ok s =>
      if !jsTruthy s then .err (brandError "api failed")
      else
        match getField response "data" with
        | .error _ => .thrown
        | .ok data =>
          match getField data "_success" with
          | .error _ => .thrown
          | .ok s2 =>
            if !isUndefined s2 then
              if !jsTruthy s2 then .err (brandError "api failed at second success check")
              else .ok response
            else .ok response

/-- The callback argument of a public operation, as far as the library
inspects it: `lodash.isfunction` distinguishes an invocable function from
everything else (`undefined`, a string, …). -/
inductive CbVal where
  | function : CbVal
  | undefined : CbVal
  | notInvocable : CbVal
deriving DecidableEq

/-- `lodash.isfunction`. -/
def isFunction : CbVal → Bool
  | .function => true
  | _ => false

/-- Synchronous outcome of a public operation up to the point of dispatch:
either a branded error is thrown (`thrown`, src `throw error`), or invoking a
non-function callback raises a language-level TypeError (`thrownTypeError`),
or the callback is invoked with a branded error message (`cbError`), or an
HTTP request with the given method and path is dispatched (`dispatched`). -/
inductive CallOutcome where
  | thrown : String → CallOutcome
  | thrownTypeError : CallOutcome
  | cbError : String → CallOutcome
  | dispatched : String → String → CallOutcome
deriving DecidableEq

/-- Invoking `callback(error)` in JavaScript: a TypeError if `callback` is
not a function (src/index.js:160 does not guard this call). -/
def invokeCallbackErr (cb : CbVal) (msg : String) : CallOutcome :=
  if isFunction cb then .cbError msg else .thrownTypeError

/-- src/index.js:115-135 — `prepareRequest`: throws the branded
"missing callback" error when the callback is not a function, otherwise
dispatches the HTTP request (headers are fixed and omitted from the model;
the path is what the claims are about). -/
def prepareRequest (method : String) (path : String) (cb : CbVal) : CallOutcome :=
  if !isFunction cb then .thrown (brandError "missing callback")
  else .dispatched method path

/-- src/index.js:145-147 — `get`. -/
def get (path : String) (cb : CbVal) : CallOutcome :=
  prepareRequest "GET" path cb

/-- The per-call request intent handed to `constructPath`
(src/index.js: the `options` object literals at each public operation).
A field the caller did not set is `none` (JavaScript `undefined`). -/
structure Options where
  platform : String
  summoner : Option String
  tag : Option String
  guid : Option String
  path : Option String
  season : Option Int
deriving DecidableEq

/-- Truthiness of an optional string field of `options`: `undefined` and the
empty string are falsy. -/
def optTruthy : Option String → Bool
  | none => false
  | some s => s != ""

/-- `options.season || ''` spliced into the path: a missing or falsy (zero)
season contributes the empty string, any other season its decimal
rendering. -/
def seasonSuffix : Option Int → String
  | none => ""
  | some n => if n == 0 then "" else toString n

/-- src/index.js:156-178 — `constructPath`: normalize the platform (invalid
platform is reported through the callback); prepend `/` to the sub-path when
present; branch on the truthiness of `options.summoner`, then
`options.tag || options.guid`, else the service-state path.  The team branch
splices `options.tag || options.guid` as identifier and appends `/leagues`
exactly when `options.guid` is truthy. -/
def constructPath (o : Options) (cb : CbVal) : CallOutcome :=
  match normalizePlatform o.platform with
  | none => invokeCallbackErr cb (brandError "invalid platform")
  | some shortPlatform =>
    let subpath := match o.path with
      | none => ""
      | some p => "/" ++ p
    if optTruthy o.summoner then
      get ("/player/" ++ shortPlatform ++ "/" ++ (o.summoner.getD "") ++ subpath
           ++ seasonSuffix o.season) cb
    else if optTruthy o.tag || optTruthy o.guid then
      get ("/team/" ++ shortPlatform ++ subpath ++ "/"
           ++ (if optTruthy o.tag then o.tag.getD "" else o.guid.getD "")
           ++ (if optTruthy o.guid then "/leagues" else "")) cb
    else
      get ("/service-state/" ++ shortPlatform ++ subpath) cb

/-- src/index.js:192-197 — `teemo.player`. -/
def player (platform : String) (summoner : String) (cb : CbVal) : CallOutcome :=
  constructPath (Options.mk platform (some summoner) none none none none) cb

/-- src/index.js:262-268 — `teemo.player.runes`. -/
def playerRunes (platform : String) (summoner : String) (cb : CbVal) : CallOutcome :=
  constructPath (Options.mk platform (some summoner) none none (some "runes") none) cb

/-- src/index.js:331-338 — `teemo.player.rankedStats`. -/
def rankedStats (platform : String) (summoner : String) (season : Int)
    (cb : CbVal) : CallOutcome :=
  constructPath
    (Options.mk platform (some summoner) none none (some "ranked_stats/season/") (some season)) cb

/-- src/index.js:366-372 — `teemo.team`. -/
def team (platform : String) (tag : String) (cb : CbVal) : CallOutcome :=
  constructPath (Options.mk platform none (some tag) none (some "tag") none) cb

/-- src/index.js:383-389 — `teemo.team.leagues`. -/
def teamLeagues (platform : String) (guid : String) (cb : CbVal) : CallOutcome :=
  constructPath (Options.mk platform none none (some guid) (some "guid") none) cb

/-- The `refererString` argument of the factory, as far as the library
inspects it: `lodash.isstring`. -/
inductive ConfigArg where
  | absent : ConfigArg
  | nonString : ConfigArg
  | str : String → ConfigArg
deriving DecidableEq

/-- `lodash.isstring`. -/
def isString : ConfigArg → Bool
  | .str _ => true
  | _ => false

/-- src/index.js:100-104 — the module factory: throws the branded
"`refererString` not defined" error synchronously when the argument is not a
string, otherwise returns the client (which retains the string as the
User-Agent value). -/
def createClient (c : ConfigArg) : Except String String :=
  match c with
  | .str s => .ok s
  | _ => .error (brandError "`refererString` not defined")

/-- An event delivered on the request object by the HTTP transport: a
complete response body (given here already accumulated and handed to
`JSON.parse`, `none` when unparseable) or a transport-level error
(`'error'` event, e.g. connection refused). -/
inductive ReqEvent where
  | response : Option JSVal → ReqEvent
  | transportError : String → ReqEvent

/-- A recorded invocation of the user callback. -/
inductive CbCall where
  | failure : String → CbCall
  | success : JSVal → CbCall

/-- The callback invocations a single dispatched call performs for a given
transport event.  `responseHandler` (src/index.js:61-92) registers a listener
only for the `'response'` event — neither it nor `prepareRequest`
(src/index.js:115-135) registers an `'error'` listener — so a transport
error event invokes no handler and the callback is never called; and when
the `end` listener throws (see `responseHandler`), the callback is likewise
never called. -/
def callbackCalls : ReqEvent → List CbCall
  | .response p =>
    match responseHandler p with
    | .err e => [.failure e]
    | .ok v => [.success v]
    | .thrown => []
  | .transportError _ => []

/-! Helper lemmas. -/

/-- Whatever `normalizePlatform` returns is one of the 8 short codes. -/
theorem normalizePlatform_mem_shortCodes (s c : String)
    (h : normalizePlatform s = some c) : c ∈ shortCodes := by
  unfold normalizePlatform at h
  cases h1 : PLATFORMS.find? (fun e => e.1 == s) with
  | some m =>
    rw [h1] at h
    have hc : s = c := Option.some.inj h
    have hms : m.1 = s := by simpa using List.find?_some h1
    rw [← hc, ← hms]
    exact List.mem_map_of_mem Prod.fst (List.mem_of_find?_eq_some h1)
  | none =>
    rw [h1] at h
    cases h2 : PLATFORMS.find? (fun e => e.2 == s) with
    | some m =>
      rw [h2] at h
      have hc : m.1 = c := Option.some.inj h
      rw [← hc]
      exact List.mem_map_of_mem Prod.fst (List.mem_of_find?_eq_some h2)
    | none =>
      rw [h2] at h
      exact absurd h (by simp)

/-- No short code is also a full name. -/
theorem shortCodes_disjoint_fullNames (c : String) (h : c ∈ shortCodes) :
    c ∉ fullNames := by
  fin_cases h <;> decide

/-- With a non-function callback, `get` (hence `prepareRequest`) throws the
branded missing-callback error. -/
theorem get_missing_callback (p : String) (cb : CbVal) (h : isFunction cb = false) :
    get p cb = CallOutcome.thrown (brandError "missing callback") := by
  simp [get, prepareRequest, h]

/-- A value distinct from `undefined` is not `isUndefined`. -/
theorem isUndefined_eq_false (v : JSVal) (h : v ≠ JSVal.undefined) :
    isUndefined v = false := by
  cases v <;> simp [isUndefined] at h ⊢

/-! Claim theorems. -/

/-- C2: the summoner form of the path builder produces `/player/na/Faker`
for platform "na", summoner "Faker", no sub-path, no season; produces
`/player/na/Faker/runes` for platform "North_America" and sub-path "runes";
and every dispatched path carries a platform short code (the value
`constructPath` splices is always one of the 8 short codes, never a full
name). -/
theorem C2_summoner_paths_use_short_code :
    player "na" "Faker" CbVal.function = CallOutcome.dispatched "GET" "/player/na/Faker" ∧
    playerRunes "North_America" "Faker" CbVal.function
      = CallOutcome.dispatched "GET" "/player/na/Faker/runes" ∧
    (∀ (o : Options) (cb : CbVal) (m p' : String),
      constructPath o cb = CallOutcome.dispatched m p' →
      ∃ c, normalizePlatform o.platform = some c ∧ c ∈ shortCodes ∧ c ∉ fullNames) := by
  refine ⟨rfl, rfl, ?_⟩
  intro o cb m p' h
  cases hn : normalizePlatform o.platform with
  | none =>
    exfalso
    simp only [constructPath, hn, invokeCallbackErr] at h
    cases hc : isFunction cb <;> simp [hc] at h
  | some c =>
    exact ⟨c, rfl, normalizePlatform_mem_shortCodes _ _ hn,
      shortCodes_disjoint_fullNames _ (normalizePlatform_mem_shortCodes _ _ hn)⟩

/-- Witness for C2 at the concrete dispatch of `/player/na/Faker`. -/
theorem C2_witness :
    ∃ c, normalizePlatform "na" = some c ∧ c ∈ shortCodes ∧ c ∉ fullNames :=
  C2_summoner_paths_use_short_code.2.2
    (Options.mk "na" (some "Faker") none none none none) CbVal.function
    "GET" "/player/na/Faker" rfl

/-- C3: the team form of the path builder produces
`/team/euw/guid/abc/leagues` for platform "euw", guid "abc", sub-path
"guid", and `/team/euw/tag/abc` (no `/leagues` suffix) for platform "euw",
tag "abc", sub-path "tag". -/
theorem C3_team_paths :
    teamLeagues "euw" "abc" CbVal.function
      = CallOutcome.dispatched "GET" "/team/euw/guid/abc/leagues" ∧
    team "euw" "abc" CbVal.function
      = CallOutcome.dispatched "GET" "/team/euw/tag/abc" :=
  ⟨rfl, rfl⟩

/-- C4: for each of the 8 platforms, `normalizePlatform` maps the short code
to itself and the full name to the short code; every string outside the 16
known forms maps to the not-found sentinel `none` (no exception). -/
theorem C4_normalize_platform :
    (∀ p ∈ PLATFORMS,
      normalizePlatform p.1 = some p.1 ∧ normalizePlatform p.2 = some p.1) ∧
    (∀ s : String, s ∉ knownForms → normalizePlatform s = none) := by
  refine ⟨by decide, ?_⟩
  intro s hs
  have h1 : PLATFORMS.find? (fun e => e.1 == s) = none := by
    rw [List.find?_eq_none]
    intro x hx hbeq
    refine hs (List.mem_append_left _ ?_)
    have hxs : x.1 = s := by simpa using hbeq
    rw [← hxs]
    exact List.mem_map_of_mem Prod.fst hx
  have h2 : PLATFORMS.find? (fun e => e.2 == s) = none := by
    rw [List.find?_eq_none]
    intro x hx hbeq
    refine hs (List.mem_append_right _ ?_)
    have hxs : x.2 = s := by simpa using hbeq
    rw [← hxs]
    exact List.mem_map_of_mem Prod.snd hx
  unfold normalizePlatform
  rw [h1, h2]

/-- Witness for C4 at the platform pair (na, North_America) and at the
unknown string "kr". -/
theorem C4_witness :
    (normalizePlatform "na" = some "na" ∧ normalizePlatform "North_America" = some "na") ∧
    normalizePlatform "kr" = none :=
  ⟨C4_normalize_platform.1 ("na", "North_America") (by decide),
   C4_normalize_platform.2 "kr" (by decide)⟩

/-- C6: when the platform does not normalize, `constructPath` reports the
branded invalid-platform error through the callback and never reaches the
dispatcher (no outcome is a dispatched request). -/
theorem C6_invalid_platform_never_dispatches :
    ∀ (o : Options) (cb : CbVal), normalizePlatform o.platform = none →
      (isFunction cb = true →
        constructPath o cb = CallOutcome.cbError (brandError "invalid platform")) ∧
      (∀ m p, constructPath o cb ≠ CallOutcome.dispatched m p) := by
  intro o cb hn
  constructor
  · intro hf
    simp [constructPath, hn, invokeCallbackErr, hf]
  · intro m p h
    simp only [constructPath, hn, invokeCallbackErr] at h
    cases hc : isFunction cb <;> simp [hc] at h

/-- Witness for C6 at platform "Narnia" with a genuine function callback. -/
theorem C6_witness :
    constructPath (Options.mk "Narnia" (some "Faker") none none none none) CbVal.function
      = CallOutcome.cbError (brandError "invalid platform") :=
  (C6_invalid_platform_never_dispatches
    (Options.mk "Narnia" (some "Faker") none none none none) CbVal.function rfl).1 rfl

/-- C1 counterexample: the claim says every parseable body with truthy
`success` and without a present-and-falsy `data._success` is returned
unchanged, but for the body `\x7b"success": true\x7d` the validator reads
`undefined._success`, throws, and returns nothing at all. -/
theorem C1_counterexample :
    responseHandler (some (JSVal.obj [("success", JSVal.bool true)]))
      = HandlerOutcome.thrown ∧
    HandlerOutcome.thrown
      ≠ HandlerOutcome.ok (JSVal.obj [("success", JSVal.bool true)]) :=
  ⟨rfl, by intro h; exact HandlerOutcome.noConfusion h⟩

/-- C1 amended: a non-JSON body yields the invalid-JSON error; a body whose
top-level `success` is falsy yields the first-tier API-failure error before
`data` is ever read; a body with truthy `success` but no `data` field makes
the validator throw (the callback is never invoked); and on bodies of the
required shape (an object with `success` and an object `data`, where JSON
parsing can never put `undefined` under `_success`) the second-tier check and
the pass-through behave exactly as the claim states, in that order. -/
theorem C1_validator_amended :
    (responseHandler none = HandlerOutcome.err (brandError "invalid json response")) ∧
    (∀ (s : JSVal) (rest : List (String × JSVal)), jsTruthy s = false →
      responseHandler (some (JSVal.obj (("success", s) :: rest)))
        = HandlerOutcome.err (brandError "api failed")) ∧
    (∀ s : JSVal, jsTruthy s = true →
      responseHandler (some (JSVal.obj [("success", s)])) = HandlerOutcome.thrown) ∧
    (∀ (s : JSVal) (d : List (String × JSVal)),
      d.lookup "_success" ≠ some JSVal.undefined →
      responseHandler (some (JSVal.obj [("success", s), ("data", JSVal.obj d)]))
        = (if jsTruthy s = false then HandlerOutcome.err (brandError "api failed")
           else
             match d.lookup "_success" with
             | none => HandlerOutcome.ok (JSVal.obj [("success", s), ("data", JSVal.obj d)])
             | some v =>
               if jsTruthy v = false then
                 HandlerOutcome.err (brandError "api failed at second success check")
               else HandlerOutcome.ok (JSVal.obj [("success", s), ("data", JSVal.obj d)]))) := by
  refine ⟨rfl, ?_, ?_, ?_⟩
  · intro s rest hs
    simp [responseHandler, getField, List.lookup, hs]
  · intro s hs
    simp [responseHandler, getField, List.lookup, hs]
  · intro s d hd
    cases hs : jsTruthy s with
    | false => simp [responseHandler, getField, List.lookup, hs]
    | true =>
      cases hl : d.lookup "_success" with
      | none =>
        simp [responseHandler, getField, List.lookup, hs, hl, isUndefined]
      | some v =>
        rw [hl] at hd
        have hv : v ≠ JSVal.undefined := fun h => hd (by rw [h])
        cases hvt : jsTruthy v with
        | false =>
          simp [responseHandler, getField, List.lookup, hs, hl, hvt,
            isUndefined_eq_false v hv]
        | true =>
          simp [responseHandler, getField, List.lookup, hs, hl, hvt,
            isUndefined_eq_false v hv]

/-- Witness for C1 amended at the spec's example
`\x7b"success": true, "data": \x7b"_success": true, "x": 1\x7d\x7d`. -/
theorem C1_witness :
    responseHandler (some (JSVal.obj [("success", JSVal.bool true),
        ("data", JSVal.obj [("_success", JSVal.bool true), ("x", JSVal.num 1)])]))
      = HandlerOutcome.ok (JSVal.obj [("success", JSVal.bool true),
        ("data", JSVal.obj [("_success", JSVal.bool true), ("x", JSVal.num 1)])]) := by
  have h := C1_validator_amended.2.2.2 (JSVal.bool true)
    [("_success", JSVal.bool true), ("x", JSVal.num 1)]
    (by simp [List.lookup])
  simpa [List.lookup, jsTruthy] using h

/-- C9 counterexample: the claim says a truthy-`success` body whose `data` is
absent *or not an object* makes the validator throw, but for
`\x7b"success": true, "data": 5\x7d` (a non-object `data`) JavaScript property
access on the number yields `undefined`, no exception occurs, and the
callback receives the parsed body as a success. -/
theorem C9_counterexample :
    responseHandler (some (JSVal.obj [("success", JSVal.bool true), ("data", JSVal.num 5)]))
      = HandlerOutcome.ok (JSVal.obj [("success", JSVal.bool true), ("data", JSVal.num 5)]) ∧
    callbackCalls (ReqEvent.response
        (some (JSVal.obj [("success", JSVal.bool true), ("data", JSVal.num 5)])))
      = [CbCall.success (JSVal.obj [("success", JSVal.bool true), ("data", JSVal.num 5)])] ∧
    HandlerOutcome.ok (JSVal.obj [("success", JSVal.bool true), ("data", JSVal.num 5)])
      ≠ HandlerOutcome.thrown :=
  ⟨rfl, rfl, by intro h; exact HandlerOutcome.noConfusion h⟩

/-- C9 amended: for a parsed body whose top-level `success` is truthy but
whose `data` field is absent or null, the read of `data._success` occurs
outside the parse-error guard and throws, so the callback is invoked with
neither an error nor a result for that call. -/
theorem C9_thrown_on_missing_data :
    ∀ s : JSVal, jsTruthy s = true →
      responseHandler (some (JSVal.obj [("success", s)])) = HandlerOutcome.thrown ∧
      responseHandler (some (JSVal.obj [("success", s), ("data", JSVal.null)]))
        = HandlerOutcome.thrown ∧
      callbackCalls (ReqEvent.response (some (JSVal.obj [("success", s)]))) = [] ∧
      callbackCalls (ReqEvent.response
        (some (JSVal.obj [("success", s), ("data", JSVal.null)]))) = [] := by
  intro s hs
  refine ⟨?_, ?_, ?_, ?_⟩ <;>
    simp [responseHandler, getField, List.lookup, hs, callbackCalls]

/-- Witness for C9 amended at `\x7b"success": true\x7d`. -/
theorem C9_witness :
    responseHandler (some (JSVal.obj [("success", JSVal.bool true)]))
      = HandlerOutcome.thrown :=
  (C9_thrown_on_missing_data (JSVal.bool true) rfl).1

/-- C5 (code bug): `responseHandler` registers only a `'response'` listener
and nobody registers an `'error'` listener, so on a transport-level error
(e.g. connection refused) the callback is invoked zero times — not exactly
once with the transport error passed through, as the spec and the README
("The callback is always executed") state.  A response event, by contrast,
does produce exactly one invocation here. -/
theorem C5_transport_error_never_reaches_callback :
    callbackCalls (ReqEvent.transportError "connect ECONNREFUSED") = [] ∧
    (callbackCalls (ReqEvent.transportError "connect ECONNREFUSED")).length ≠ 1 ∧
    (callbackCalls (ReqEvent.response none)).length = 1 :=
  ⟨rfl, by decide, rfl⟩

/-- C7 counterexample: the claim says a missing callback always fails with
the branded missing-callback error regardless of the other arguments, but
with an unresolvable platform `constructPath` reaches `callback(error)`
first and invoking the missing callback raises a plain TypeError instead. -/
theorem C7_counterexample :
    player "not_a_platform" "Faker" CbVal.undefined = CallOutcome.thrownTypeError ∧
    CallOutcome.thrownTypeError ≠ CallOutcome.thrown (brandError "missing callback") :=
  ⟨rfl, by decide⟩

/-- C7 amended: constructing the client with an absent or non-string
configuration string throws the branded configuration error synchronously;
and every operation invoked with a non-invocable callback fails
synchronously before any dispatch — with the branded missing-callback error
when the platform resolves, but with a language-level TypeError (from
invoking the non-callback with the invalid-platform error) when it does
not. -/
theorem C7_synchronous_argument_failures :
    (∀ c : ConfigArg, isString c = false →
      createClient c = Except.error (brandError "`refererString` not defined")) ∧
    (∀ (o : Options) (cb : CbVal), isFunction cb = false →
      ((normalizePlatform o.platform).isSome →
        constructPath o cb = CallOutcome.thrown (brandError "missing callback")) ∧
      (normalizePlatform o.platform = none →
        constructPath o cb = CallOutcome.thrownTypeError) ∧
      (∀ m p, constructPath o cb ≠ CallOutcome.dispatched m p)) := by
  constructor
  · intro c hc
    cases c with
    | absent => rfl
    | nonString => rfl
    | str s => simp [isString] at hc
  · intro o cb hcb
    refine ⟨?_, ?_, ?_⟩
    · intro hsome
      cases hn : normalizePlatform o.platform with
      | none => rw [hn] at hsome; simp at hsome
      | some c => simp [constructPath, hn, get, prepareRequest, hcb]
    · intro hn
      simp [constructPath, hn, invokeCallbackErr, hcb]
    · intro m p h
      cases hn : normalizePlatform o.platform with
      | none => simp [constructPath, hn, invokeCallbackErr, hcb] at h
      | some c => simp [constructPath, hn, get, prepareRequest, hcb] at h

/-- Witness for C7 amended: absent configuration, and a missing callback on
a resolvable platform. -/
theorem C7_witness :
    createClient ConfigArg.absent
      = Except.error (brandError "`refererString` not defined") ∧
    constructPath (Options.mk "na" (some "Faker") none none none none) CbVal.undefined
      = CallOutcome.thrown (brandError "missing callback") :=
  ⟨C7_synchronous_argument_failures.1 ConfigArg.absent rfl,
   (C7_synchronous_argument_failures.2
     (Options.mk "na" (some "Faker") none none none none) CbVal.undefined rfl).1 rfl⟩

/-- C8 counterexample: with both tag "abc" and guid "xyz" present, the tag
is spliced as the identifier yet `/leagues` is still appended (because the
suffix tests `options.guid`'s truthiness, not which identifier was used), so
the suffix is not appended "exactly when the guid path is taken". -/
theorem C8_counterexample :
    constructPath (Options.mk "euw" none (some "abc") (some "xyz") none none) CbVal.function
      = CallOutcome.dispatched "GET" "/team/euw/abc/leagues" ∧
    CallOutcome.dispatched "GET" "/team/euw/abc/leagues"
      ≠ CallOutcome.dispatched "GET" "/team/euw/abc" :=
  ⟨rfl, by decide⟩

/-- C8 amended: in the team form, a truthy tag always takes precedence as
the identifier spliced into the path, and the `/leagues` suffix is appended
exactly when the guid is truthy — even when the tag was the identifier
used. -/
theorem C8_tag_precedence_guid_suffix :
    ∀ (p c tg : String) (guid sub : Option String),
      normalizePlatform p = some c → tg ≠ "" →
      constructPath (Options.mk p none (some tg) guid sub none) CbVal.function
        = CallOutcome.dispatched "GET"
            ("/team/" ++ c ++ (match sub with | none => "" | some q => "/" ++ q)
             ++ "/" ++ tg ++ (if optTruthy guid then "/leagues" else "")) := by
  intro p c tg guid sub hn ht
  cases sub <;>
    simp [constructPath, hn, optTruthy, get, prepareRequest, isFunction, ht]

/-- Witness for C8 amended: platform "euw", tag "abc", guid "xyz", no
sub-path. -/
theorem C8_witness :
    constructPath (Options.mk "euw" none (some "abc") (some "xyz") none none) CbVal.function
      = CallOutcome.dispatched "GET" "/team/euw/abc/leagues" := by
  have h := C8_tag_precedence_guid_suffix "euw" "euw" "abc" (some "xyz") none rfl
    (by decide)
  simpa [optTruthy] using h

/-- C10: discriminator presence is JavaScript truthiness — with an
empty-string summoner, `teemo.player` falls through to the service-state
path `/service-state/{short}`; with an empty-string tag, `teemo.team` issues
`/service-state/{short}/tag`; and a falsy season (0) is appended as the
empty string by `teemo.player.rankedStats`. -/
theorem C10_truthiness_fallthrough :
    ∀ p c : String, normalizePlatform p = some c →
      player p "" CbVal.function
        = CallOutcome.dispatched "GET" ("/service-state/" ++ c) ∧
      team p "" CbVal.function
        = CallOutcome.dispatched "GET" ("/service-state/" ++ c ++ "/tag") ∧
      (∀ s : String, s ≠ "" →
        rankedStats p s 0 CbVal.function
          = CallOutcome.dispatched "GET"
              ("/player/" ++ c ++ "/" ++ s ++ "/ranked_stats/season/")) := by
  intro p c hn
  refine ⟨?_, ?_, ?_⟩
  · simp [player, constructPath, hn, optTruthy, get, prepareRequest, isFunction]
  · simp [team, constructPath, hn, optTruthy, get, prepareRequest, isFunction]
  · intro s hsne
    simp [rankedStats, constructPath, hn, optTruthy, seasonSuffix, get,
      prepareRequest, isFunction, hsne]

/-- Witness for C10 at platform "na" and summoner "Faker". -/
theorem C10_witness :
    player "na" "" CbVal.function = CallOutcome.dispatched "GET" "/service-state/na" ∧
    team "na" "" CbVal.function = CallOutcome.dispatched "GET" "/service-state/na/tag" ∧
    rankedStats "na" "Faker" 0 CbVal.function
      = CallOutcome.dispatched "GET" "/player/na/Faker/ranked_stats/season/" :=
  ⟨(C10_truthiness_fallthrough "na" "na" rfl).1,
   (C10_truthiness_fallthrough "na" "na" rfl).2.1,
   (C10_truthiness_fallthrough "na" "na" rfl).2.2 "Faker" (by decide)⟩

end Resteemo
